import Mathlib

/-!
# Verification of the DCF valuation engine and financial-data validator

Shallow embedding, over exact rationals, of the computational core of the
DCF-Valuation-Model repository:

* `run_multi_valuation_enhanced`, `calculate_wacc_detailed` and
  `sensitivity_heatmap_prices` from `src/modules/valuation_engine.py`;
* `FinancialDataValidator.validate_all` from `src/data_validation.py`.

Python floats are modelled as `ℚ`; a Python division that would raise
`ZeroDivisionError` (denominator exactly `0`) is modelled by an explicit
zero test returning an error value, in the order in which the divisions
are executed by the source.  F-string arguments of logging calls are
evaluated eagerly by Python, so a division inside a logged f-string is a
genuine execution step and is modelled as such.
-/

namespace DCF

/-- The flat financial-inputs record (`inputs: Dict` in the source).  Each
field holds the value the source reads for that key, with the source's
`.get(key, default)` defaults applied when a key is absent. -/
structure Inputs where
  revenue : ℚ
  ebit : ℚ
  net_income : ℚ
  tax_rate : ℚ
  shares : ℚ
  debt : ℚ
  cash : ℚ
  current_price : ℚ
  interest_exp : ℚ
  dividends : ℚ
  beta : ℚ
  roic : ℚ
deriving DecidableEq, Repr

/-- `DCFConfig.FORECAST_YEARS` -/
def FORECAST_YEARS : ℕ := 5

/-- `DCFConfig.DEFAULT_ROC` (0.15), the default for `inputs.get('roic', ...)`. -/
def DEFAULT_ROC : ℚ := 15/100

/-- `DCFConfig.MAX_REINVESTMENT_RATE` (0.80). -/
def MAX_REINVESTMENT_RATE : ℚ := 80/100

/-- One row of the explicit 5-year forecast (`projections.append({...})`). -/
structure Projection where
  year : ℕ
  revenue : ℚ
  ebit : ℚ
  tax_rate : ℚ
  nopat : ℚ
  reinvestment_rate : ℚ
  reinvestment : ℚ
  fcff : ℚ
  pv_factor : ℚ
  pv_fcff : ℚ
deriving DecidableEq, Repr

/-- The dictionary returned by `run_multi_valuation_enhanced` (lines 382-396). -/
structure EngineResult where
  df : List Projection
  dcf_price : ℚ
  pe_price : ℚ
  ev : ℚ
  equity_value : ℚ
  pv_explicit : ℚ
  pv_terminal : ℚ
  terminal_pct : ℚ
  current_price : ℚ
  shares_m : ℚ
  upside_pct : ℚ
  margin_of_safety : ℚ
  wacc_input : ℚ
deriving DecidableEq, Repr

/-- The keys of the dictionary literal returned by
`run_multi_valuation_enhanced` (valuation_engine.py lines 382-396),
in source order. -/
def engineResultKeys : List String :=
  ["df", "dcf_price", "pe_price", "ev", "equity_value", "pv_explicit",
   "pv_terminal", "terminal_pct", "current_price", "shares_m",
   "upside_pct", "margin_of_safety", "wacc_input"]

/-- The exceptions `run_multi_valuation_enhanced` can raise, one constructor
per raising site, in textual order:

* `divZeroMarginLog`: line 243, the f-string `(ebit/rev)*100` divides by a
  zero `rev` (evaluated eagerly before `logger.info` is entered);
* `divZeroRoc`: line 248, `growth_rate / assumed_roc` with a zero `roic`;
* `divZeroPvFactor`: line 279, `1 / ((1 + wacc) ** year)` with `wacc = -1`
  (first raised at year 1);
* `terminalParamsInvalid`: the explicit `raise ValueError` at line 309;
* `divZeroTerminal`: line 312, denominator `stable_wacc - t_growth` zero;
* `divZeroPvTerminal`: line 313, denominator `(1 + wacc) ** 5` zero;
* `divZeroTerminalPct`: line 332, `pv_terminal / ev_m` with `ev_m = 0`. -/
inductive EngineErr where
  | divZeroMarginLog
  | divZeroRoc
  | divZeroPvFactor
  | terminalParamsInvalid
  | divZeroTerminal
  | divZeroPvTerminal
  | divZeroTerminalPct
deriving DecidableEq, Repr

/-- `reinvestment_rate = min(growth_rate / assumed_roc, DCFConfig.MAX_REINVESTMENT_RATE)`
(line 248), where `assumed_roc = inputs.get('roic', DCFConfig.DEFAULT_ROC)`. -/
def reinvRate (i : Inputs) (growth_rate : ℚ) : ℚ :=
  min (growth_rate / i.roic) MAX_REINVESTMENT_RATE

/-- The running revenue of the forecast loop: `current_rev` starts at `rev`
and is multiplied by `(1 + growth_rate)` once per iteration (line 266). -/
def currentRev (rev growth_rate : ℚ) : ℕ → ℚ
  | 0 => rev
  | y + 1 => currentRev rev growth_rate y * (1 + growth_rate)

/-- The projection row appended for forecast year `y` (lines 264-296). -/
def mkProjection (i : Inputs) (growth_rate wacc : ℚ) (y : ℕ) : Projection :=
  let rev := i.revenue
  let current_rev := currentRev rev growth_rate y
  let year_ebit := if rev > 0 then current_rev * (i.ebit / rev) else 0
  let year_nopat := year_ebit * (1 - i.tax_rate)
  let reinvestment := year_nopat * reinvRate i growth_rate
  let fcff := year_nopat - reinvestment
  let pv_factor := 1 / ((1 + wacc) ^ y)
  { year := 2025 + y
    revenue := current_rev
    ebit := year_ebit
    tax_rate := i.tax_rate
    nopat := year_nopat
    reinvestment_rate := reinvRate i growth_rate
    reinvestment := reinvestment
    fcff := fcff
    pv_factor := pv_factor
    pv_fcff := fcff * pv_factor }

/-- The five projection rows, years 1..5 (`for year in range(1, 6)`). -/
def projections (i : Inputs) (growth_rate wacc : ℚ) : List Projection :=
  (List.range FORECAST_YEARS).map (fun k => mkProjection i growth_rate wacc (k + 1))

/-- `pv_fcff_explicit = df_projections['pv_fcff'].sum()` (line 299). -/
def pvExplicit (i : Inputs) (growth_rate wacc : ℚ) : ℚ :=
  ((projections i growth_rate wacc).map Projection.pv_fcff).sum

/-- `last_fcff = projections[-1]['fcff']` (line 302). -/
def lastFcff (i : Inputs) (growth_rate wacc : ℚ) : ℚ :=
  (mkProjection i growth_rate wacc FORECAST_YEARS).fcff

/-- `stable_wacc = max(wacc, t_growth + 0.01)` (line 305). -/
def stableWacc (wacc t_growth : ℚ) : ℚ :=
  max wacc (t_growth + 1/100)

/-- `terminal_value = (last_fcff * (1 + t_growth)) / (stable_wacc - t_growth)`
(line 312). -/
def terminalValue (i : Inputs) (growth_rate wacc t_growth : ℚ) : ℚ :=
  lastFcff i growth_rate wacc * (1 + t_growth) / (stableWacc wacc t_growth - t_growth)

/-- `pv_terminal = terminal_value / ((1 + wacc) ** 5)` (line 313) — discounted
at the original `wacc`, not at `stable_wacc`. -/
def pvTerminal (i : Inputs) (growth_rate wacc t_growth : ℚ) : ℚ :=
  terminalValue i growth_rate wacc t_growth / ((1 + wacc) ^ FORECAST_YEARS)

/-- `ev_m = pv_fcff_explicit + pv_terminal` (line 323). -/
def enterpriseValue (i : Inputs) (growth_rate wacc t_growth : ℚ) : ℚ :=
  pvExplicit i growth_rate wacc + pvTerminal i growth_rate wacc t_growth

/-- The result record built by the non-raising path of
`run_multi_valuation_enhanced` (lines 323-396). -/
def okResult (i : Inputs) (growth_rate wacc t_growth : ℚ) : EngineResult :=
  let shares_m := i.shares / 1000000
  let ev_m := enterpriseValue i growth_rate wacc t_growth
  let pv_term := pvTerminal i growth_rate wacc t_growth
  let terminal_pct := pv_term / ev_m * 100
  let equity_val_m := ev_m - i.debt + i.cash
  let price_dcf := if shares_m > 0 then equity_val_m / shares_m else 0
  let eps := if shares_m > 0 then i.net_income / shares_m else 0
  let price_pe := eps * 15
  let upside_pct :=
    if i.current_price > 0 then (price_dcf - i.current_price) / i.current_price * 100 else 0
  let mos := if price_dcf > 0 then (price_dcf - i.current_price) / price_dcf * 100 else 0
  { df := projections i growth_rate wacc
    dcf_price := price_dcf
    pe_price := price_pe
    ev := ev_m
    equity_value := equity_val_m
    pv_explicit := pvExplicit i growth_rate wacc
    pv_terminal := pv_term
    terminal_pct := terminal_pct
    current_price := i.current_price
    shares_m := shares_m
    upside_pct := upside_pct
    margin_of_safety := mos
    wacc_input := wacc }

/-- `run_multi_valuation_enhanced(inputs, growth_rate, wacc, t_growth, market_data)`
(lines 207-396).  The `market_data` argument is never read by the source
function and is omitted.  Zero-denominator tests appear in the order in
which the source executes the corresponding divisions; the five per-year
divisions `1/((1+wacc)**year)` all have a zero denominator exactly when
`1 + wacc = 0`, so the first iteration's test stands for all of them. -/
def run_multi_valuation_enhanced (i : Inputs) (growth_rate wacc t_growth : ℚ) :
    Except EngineErr EngineResult :=
  if i.revenue = 0 then .error .divZeroMarginLog
  else if i.roic = 0 then .error .divZeroRoc
  else if 1 + wacc = 0 then .error .divZeroPvFactor
  else if stableWacc wacc t_growth ≤ t_growth then .error .terminalParamsInvalid
  else if stableWacc wacc t_growth - t_growth = 0 then .error .divZeroTerminal
  else if (1 + wacc) ^ FORECAST_YEARS = 0 then .error .divZeroPvTerminal
  else if enterpriseValue i growth_rate wacc t_growth = 0 then .error .divZeroTerminalPct
  else .ok (okResult i growth_rate wacc t_growth)

/-! ## `calculate_wacc_detailed` (valuation_engine.py lines 60-204) -/

/-- The `WACCComponents` dataclass (lines 47-57). -/
structure WACCComponents where
  cost_of_equity : ℚ
  cost_of_debt : ℚ
  equity_weight : ℚ
  debt_weight : ℚ
  beta : ℚ
  interest_coverage : ℚ
  credit_spread : ℚ
  wacc : ℚ
deriving DecidableEq, Repr

/-- The size-premium step function of market capitalization in millions
(lines 95-103). -/
def sizePremium (market_cap : ℚ) : ℚ :=
  if market_cap > 500000 then 0
  else if market_cap > 100000 then -(2/1000)
  else if market_cap > 10000 then -(5/1000)
  else 1/100

/-- The credit-spread lookup on the interest-coverage ratio (lines 128-147). -/
def creditSpread (interest_coverage : ℚ) : ℚ :=
  if interest_coverage > 8 then 15/1000
  else if interest_coverage > 5 then 2/100
  else if interest_coverage > 5/2 then 3/100
  else if interest_coverage > 3/2 then 5/100
  else 8/100

/-- The single exception `calculate_wacc_detailed` can raise: the interest
coverage division at line 124 when `interest_exp + 1e-8` is exactly zero. -/
inductive WaccErr where
  | divZeroCoverage
deriving DecidableEq, Repr

/-- The components record built by the non-raising path of
`calculate_wacc_detailed`. -/
def waccComponents (i : Inputs) (risk_free_rate equity_risk_premium : ℚ) : WACCComponents :=
  let beta := i.beta
  let market_cap := i.current_price * i.shares / 1000000
  let cost_of_equity := risk_free_rate + beta * equity_risk_premium
    + sizePremium market_cap + 5/1000
  let interest_coverage := i.ebit / (i.interest_exp + 1/100000000)
  let cost_of_debt := risk_free_rate + creditSpread interest_coverage
  let equity_market_value := i.current_price * i.shares / 1000000
  let total_firm_value := equity_market_value + i.debt
  let equity_weight := if total_firm_value = 0 then 1 else equity_market_value / total_firm_value
  let debt_weight := if total_firm_value = 0 then 0 else i.debt / total_firm_value
  let wacc := equity_weight * cost_of_equity
    + debt_weight * cost_of_debt * (1 - i.tax_rate)
  { cost_of_equity := cost_of_equity
    cost_of_debt := cost_of_debt
    equity_weight := equity_weight
    debt_weight := debt_weight
    beta := beta
    interest_coverage := interest_coverage
    credit_spread := creditSpread interest_coverage
    wacc := wacc }

/-- `calculate_wacc_detailed(inputs, risk_free_rate, equity_risk_premium)`
(lines 60-204), returning the pair `(wacc, components)`. -/
def calculate_wacc_detailed (i : Inputs) (risk_free_rate equity_risk_premium : ℚ) :
    Except WaccErr (ℚ × WACCComponents) :=
  if i.interest_exp + 1/100000000 = 0 then .error .divZeroCoverage
  else
    let c := waccComponents i risk_free_rate equity_risk_premium
    .ok (c.wacc, c)

/-! ## `sensitivity_heatmap_prices` (valuation_engine.py lines 467-505)

A matrix cell is `none` when the source stores `np.nan` there, and
`some p` when it stores the price `p`.  The per-cell `try/except` that
turns any engine exception into `np.nan` is the `Except`-to-`Option`
collapse in `sensCell`. -/

/-- One cell of the sensitivity matrix (lines 489-502). -/
def sensCell (i : Inputs) (growth_rate w g : ℚ) : Option ℚ :=
  if w ≤ g then none
  else
    match run_multi_valuation_enhanced i growth_rate w g with
    | .ok r => some r.dcf_price
    | .error _ => none

/-- `sensitivity_heatmap_prices(inputs, growth_rate, wacc, t_growth,
wacc_range, tg_range, market_data)`.  The base `wacc` and `t_growth`
arguments are received but never read by the source loop; rows range over
`wacc_range`, columns over `tg_range`. -/
def sensitivity_heatmap_prices (i : Inputs) (growth_rate _wacc _t_growth : ℚ)
    (wacc_range tg_range : List ℚ) : List (List (Option ℚ)) :=
  wacc_range.map (fun w => tg_range.map (fun g => sensCell i growth_rate w g))

/-- Element access `matrix[i, j]` for the nested-list matrix. -/
def cellAt (m : List (List (Option ℚ))) (idx jdx : ℕ) : Option (Option ℚ) :=
  (m[idx]?).bind (fun row => row[jdx]?)

/-! ## `FinancialDataValidator.validate_all` (data_validation.py lines 60-304)

The validator appends message strings to `self.errors` and `self.warnings`;
the messages' formatted text is abstracted to one tag per `append` site
(the claims under verification concern severities, not message wording).
Appends happen in source order: the errors list receives contributions
only from `_validate_scale_checks` and `_validate_leverage`; every other
rule group appends only warnings.  The embedded `Inputs` record always
carries a value for every key (the source's `.get` defaults applied), so
the completeness check's missing-fields warning never fires here. -/

/-- One tag per `self.errors.append(...)` / `self.warnings.append(...)`
site of `FinancialDataValidator`, in textual order. -/
inductive VIssue where
  | revenueBelowMin        -- line 100
  | revenueAboveMax        -- line 102
  | sharesBelowMin         -- line 110
  | sharesAboveMax         -- line 112
  | ebitMarginBelowMin     -- line 121
  | ebitMarginAboveMax     -- line 123
  | netIncomeNegativeWarn  -- line 143
  | ebitNegativeWarn       -- line 138
  | niToEbitUnusualWarn    -- line 151
  | coverageModerateWarn   -- line 175 (BBB band)
  | coverageElevatedWarn   -- line 178 (BB band)
  | coverageDistressedErr  -- line 181
  | debtNoInterestWarn     -- line 184
  | leverageElevatedWarn   -- line 198
  | leverageExcessiveErr   -- line 200
  | cashRevenueLowWarn     -- line 222
  | cashCoversLittleWarn   -- line 236
  | cashMinimalWarn        -- line 238
  | ebitMarginThinWarn     -- line 255
  | netMarginBurdenWarn    -- line 266
  | ebitExceedsRevenueWarn -- line 281
  | niExceedsEbitWarn      -- line 285
deriving DecidableEq, Repr

/-- Market-value equity used by the leverage check
(`current_price * shares / 1e6`, line 189). -/
def equityMarketValue (i : Inputs) : ℚ :=
  i.current_price * i.shares / 1000000

/-- Errors appended by `_validate_scale_checks` (lines 92-125). -/
def scaleErrors (i : Inputs) : List VIssue :=
  (if i.revenue < 1 then [.revenueBelowMin]
   else if i.revenue > 1000000 then [.revenueAboveMax]
   else [])
  ++ (if i.shares / 1000000 < 1/10 then [.sharesBelowMin]
      else if i.shares / 1000000 > 10000 then [.sharesAboveMax]
      else [])
  ++ (if i.revenue > 0 then
        (if i.ebit / i.revenue < -(1/2) then [.ebitMarginBelowMin]
         else if i.ebit / i.revenue > 7/10 then [.ebitMarginAboveMax]
         else [])
      else [])

/-- Warnings appended by `_validate_profitability` (lines 127-151). -/
def profitabilityWarnings (i : Inputs) : List VIssue :=
  (if i.ebit < 0 then [.ebitNegativeWarn] else [])
  ++ (if i.net_income < 0 then [.netIncomeNegativeWarn] else [])
  ++ (if i.ebit > 0 ∧ i.net_income > 0 ∧
        (i.net_income / i.ebit < 3/10 ∨ i.net_income / i.ebit > 1)
      then [.niToEbitUnusualWarn] else [])

/-- Errors appended by `_validate_leverage` (lines 153-207): the
distressed-coverage branch (`ic ≤ 1.5` when `interest_exp > 0`) and the
excessive-leverage branch (`debt/equity ≥ 5` when computable). -/
def leverageErrors (i : Inputs) : List VIssue :=
  (if i.interest_exp > 0 then
     (if i.ebit / i.interest_exp > 3/2 then [] else [.coverageDistressedErr])
   else [])
  ++ (if i.debt > 0 ∧ equityMarketValue i > 0 ∧
        ¬ (i.debt / equityMarketValue i < 5)
      then [.leverageExcessiveErr] else [])

/-- Warnings appended by `_validate_leverage` (lines 153-207). -/
def leverageWarnings (i : Inputs) : List VIssue :=
  (if i.interest_exp > 0 then
     (if i.ebit / i.interest_exp > 5 then []
      else if i.ebit / i.interest_exp > 5/2 then [.coverageModerateWarn]
      else if i.ebit / i.interest_exp > 3/2 then [.coverageElevatedWarn]
      else [])
   else if i.debt > 0 then [.debtNoInterestWarn] else [])
  ++ (if i.debt > 0 ∧ equityMarketValue i > 0 ∧
        2 ≤ i.debt / equityMarketValue i ∧ i.debt / equityMarketValue i < 5
      then [.leverageElevatedWarn] else [])

/-- Warnings appended by `_validate_liquidity` (lines 209-238). -/
def liquidityWarnings (i : Inputs) : List VIssue :=
  (if (if i.revenue > 0 then i.cash / i.revenue else 0) < 1/100
   then [.cashRevenueLowWarn] else [])
  ++ (if i.debt > 0 then
        (if i.cash / i.debt > 1 then []
         else if i.cash / i.debt > 1/2 then []
         else if i.cash / i.debt > 1/10 then [.cashCoversLittleWarn]
         else [.cashMinimalWarn])
      else [])

/-- Warnings appended by `_validate_margins` (lines 240-268). -/
def marginWarnings (i : Inputs) : List VIssue :=
  if i.revenue > 0 then
    (if i.ebit / i.revenue < 0 then []
     else if i.ebit / i.revenue < 1/20 then [.ebitMarginThinWarn]
     else [])
    ++ (if i.net_income / i.revenue < 0 then []
        else if i.net_income / i.revenue < i.ebit / i.revenue - 3/20
        then [.netMarginBurdenWarn]
        else [])
  else []

/-- Warnings appended by `_validate_growth_consistency` (lines 270-287). -/
def growthWarnings (i : Inputs) : List VIssue :=
  (if i.revenue > 0 ∧ i.ebit > i.revenue then [.ebitExceedsRevenueWarn] else [])
  ++ (if i.ebit > 0 ∧ i.net_income > i.ebit then [.niExceedsEbitWarn] else [])

/-- `self.errors` after `validate_all` (scale then leverage, in call order). -/
def errorsOf (i : Inputs) : List VIssue :=
  scaleErrors i ++ leverageErrors i

/-- `self.warnings` after `validate_all`, in call order of the rule groups. -/
def warningsOf (i : Inputs) : List VIssue :=
  profitabilityWarnings i ++ leverageWarnings i ++ liquidityWarnings i
  ++ marginWarnings i ++ growthWarnings i

/-- `is_valid = len(self.errors) == 0` (line 82). -/
def isValid (i : Inputs) : Bool :=
  errorsOf i = []

/-! ## Basic lemmas about the engine -/

/-- The FinancialInputs record of the spec's end-to-end example (§8), with
shares as an absolute count (`100 (millions)` = 1e8), the convention the
engine's own `__main__` block uses. -/
def specInputs : Inputs :=
  { revenue := 1000, ebit := 250, net_income := 200, tax_rate := 21/100,
    shares := 100000000, debt := 500, cash := 200, current_price := 100,
    interest_exp := 20, dividends := 50, beta := 1, roic := 15/100 }

/-- A successful run returns exactly the `okResult` record. -/
lemma run_ok_inv {i : Inputs} {g w tg : ℚ} {r : EngineResult}
    (h : run_multi_valuation_enhanced i g w tg = .ok r) :
    r = okResult i g w tg := by
  unfold run_multi_valuation_enhanced at h
  split_ifs at h
  all_goals simp_all

/-- The clamp really clamps: `stable_wacc` strictly exceeds `t_growth`. -/
lemma stableWacc_gt (w tg : ℚ) : tg < stableWacc w tg :=
  lt_of_lt_of_le (by linarith) (le_max_right w (tg + 1/100))

/-- The engine succeeds whenever no division raises: nonzero revenue and
roc, `wacc ≠ -1`, and a nonzero enterprise value. -/
lemma run_eq_ok (i : Inputs) (g w tg : ℚ)
    (hrev : i.revenue ≠ 0) (hroc : i.roic ≠ 0) (hw : 1 + w ≠ 0)
    (hev : enterpriseValue i g w tg ≠ 0) :
    run_multi_valuation_enhanced i g w tg = .ok (okResult i g w tg) := by
  unfold run_multi_valuation_enhanced
  rw [if_neg hrev, if_neg hroc, if_neg hw,
    if_neg (not_le.mpr (stableWacc_gt w tg)),
    if_neg (sub_ne_zero.mpr (stableWacc_gt w tg).ne'),
    if_neg (pow_ne_zero FORECAST_YEARS hw), if_neg hev]

lemma projections_length (i : Inputs) (g w : ℚ) :
    (projections i g w).length = 5 := by
  simp [projections, FORECAST_YEARS]

/-! ## Closed forms for the forecast cash flows -/

lemma currentRev_eq (rev g : ℚ) (y : ℕ) :
    currentRev rev g y = rev * (1 + g) ^ y := by
  induction y with
  | zero => simp [currentRev]
  | succ n ih => rw [currentRev, ih, pow_succ]; ring

/-- The year-independent FCFF factor: with a constant EBIT margin, year `y`
FCFF is this base times `(1+g)^y`. -/
def fcffBase (i : Inputs) (g : ℚ) : ℚ :=
  i.ebit * (1 - i.tax_rate) * (1 - reinvRate i g)

lemma fcff_eq (i : Inputs) (g w : ℚ) (y : ℕ) (hr : 0 < i.revenue) :
    (mkProjection i g w y).fcff = fcffBase i g * (1 + g) ^ y := by
  simp only [mkProjection, if_pos hr, currentRev_eq, fcffBase]
  field_simp
  ring

lemma pv_fcff_def (i : Inputs) (g w : ℚ) (y : ℕ) :
    (mkProjection i g w y).pv_fcff =
      (mkProjection i g w y).fcff * (1 / (1 + w) ^ y) := rfl

lemma fcffBase_pos (i : Inputs) (g : ℚ) (he : 0 < i.ebit) (htax : i.tax_rate < 1) :
    0 < fcffBase i g := by
  have hcap : reinvRate i g ≤ 80/100 := by
    have := min_le_right (g / i.roic) MAX_REINVESTMENT_RATE
    unfold MAX_REINVESTMENT_RATE at this
    exact this
  have h2 : (0:ℚ) < 1 - reinvRate i g := by linarith
  exact mul_pos (mul_pos he (by linarith)) h2

lemma pvExplicit_eq (i : Inputs) (g w : ℚ) (hr : 0 < i.revenue) :
    pvExplicit i g w =
      fcffBase i g * (1 + g) ^ 1 * (1 / (1 + w) ^ 1)
      + fcffBase i g * (1 + g) ^ 2 * (1 / (1 + w) ^ 2)
      + fcffBase i g * (1 + g) ^ 3 * (1 / (1 + w) ^ 3)
      + fcffBase i g * (1 + g) ^ 4 * (1 / (1 + w) ^ 4)
      + fcffBase i g * (1 + g) ^ 5 * (1 / (1 + w) ^ 5) := by
  have h5 : List.range FORECAST_YEARS = [0, 1, 2, 3, 4] := rfl
  simp only [pvExplicit, projections, h5, List.map_cons, List.map_nil,
    List.sum_cons, List.sum_nil, pv_fcff_def, fcff_eq i g w _ hr]
  ring

lemma lastFcff_eq (i : Inputs) (g w : ℚ) (hr : 0 < i.revenue) :
    lastFcff i g w = fcffBase i g * (1 + g) ^ 5 :=
  fcff_eq i g w 5 hr

lemma pvTerminal_eq (i : Inputs) (g w tg : ℚ) (h : tg + 1/100 ≤ w) (hr : 0 < i.revenue) :
    pvTerminal i g w tg =
      fcffBase i g * (1 + g) ^ 5 * (1 + tg) / ((w - tg) * (1 + w) ^ 5) := by
  unfold pvTerminal terminalValue stableWacc FORECAST_YEARS
  rw [max_eq_left h, lastFcff_eq i g w hr, div_div]

lemma pvExplicit_pos (i : Inputs) (g w : ℚ) (hr : 0 < i.revenue) (he : 0 < i.ebit)
    (htax : i.tax_rate < 1) (hg : -1 < g) (hw : -1 < w) :
    0 < pvExplicit i g w := by
  rw [pvExplicit_eq i g w hr]
  have hb := fcffBase_pos i g he htax
  have ha : (0:ℚ) < 1 + g := by linarith
  have hwp : (0:ℚ) < 1 + w := by linarith
  have t : ∀ y : ℕ, 0 < fcffBase i g * (1 + g) ^ y * (1 / (1 + w) ^ y) :=
    fun y => mul_pos (mul_pos hb (pow_pos ha y)) (by positivity)
  linarith [t 1, t 2, t 3, t 4, t 5]

lemma pvTerminal_pos (i : Inputs) (g w tg : ℚ) (hr : 0 < i.revenue) (he : 0 < i.ebit)
    (htax : i.tax_rate < 1) (hg : -1 < g) (htg : -1 < tg) (hw : tg + 1/100 < w) :
    0 < pvTerminal i g w tg := by
  rw [pvTerminal_eq i g w tg hw.le hr]
  have hb := fcffBase_pos i g he htax
  have ha : (0:ℚ) < 1 + g := by linarith
  have hwp : (0:ℚ) < 1 + w := by linarith
  have htgp : (0:ℚ) < 1 + tg := by linarith
  have hden : (0:ℚ) < (w - tg) * (1 + w) ^ 5 :=
    mul_pos (by linarith) (pow_pos hwp 5)
  exact div_pos (mul_pos (mul_pos hb (pow_pos ha 5)) htgp) hden

/-- Under spec-valid inputs the enterprise value is strictly positive (in
particular nonzero, so the engine's `terminal_pct` division succeeds). -/
lemma ev_pos (i : Inputs) (g w tg : ℚ) (hr : 0 < i.revenue) (he : 0 < i.ebit)
    (htax : i.tax_rate < 1) (hg : -1 < g) (htg : -1 < tg) (hw : tg + 1/100 < w) :
    0 < enterpriseValue i g w tg :=
  add_pos (pvExplicit_pos i g w hr he htax hg (by linarith))
    (pvTerminal_pos i g w tg hr he htax hg htg hw)

lemma dcf_price_eq (i : Inputs) (g w tg : ℚ) (hs : 0 < i.shares) :
    (okResult i g w tg).dcf_price =
      (enterpriseValue i g w tg - i.debt + i.cash) / (i.shares / 1000000) := by
  have h : (0:ℚ) < i.shares / 1000000 := by positivity
  simp only [okResult, if_pos h]

/-! ## C4 — no DDM price in the valuation result -/

/-- C4: the dictionary returned by `run_multi_valuation_enhanced` carries no
`ddm_price` entry (and the function ignores `market_data`, so no CAPM cost
of equity and no Gordon-growth dividend model is computed anywhere in it);
`app.py` line 198 nevertheless reads `result['ddm_price']`. -/
theorem no_ddm_price_key : "ddm_price" ∉ engineResultKeys := by decide

/-! ## C7 — reinvestment-rate clamp -/

/-- C7: in every successful run, all five projection rows carry the
reinvestment rate `min(growth_rate / assumed_roc, 0.80)`, and when
`growth_rate / assumed_roc` exceeds the cap the rate is exactly `0.80`. -/
theorem reinvestment_rate_clamped (i : Inputs) (g w tg : ℚ) (r : EngineResult)
    (h : run_multi_valuation_enhanced i g w tg = .ok r) :
    r.df.length = 5 ∧
    (∀ p ∈ r.df, p.reinvestment_rate = min (g / i.roic) (80/100)) ∧
    (80/100 < g / i.roic → ∀ p ∈ r.df, p.reinvestment_rate = 80/100) := by
  have hr := run_ok_inv h
  subst hr
  have hdf : (okResult i g w tg).df = projections i g w := rfl
  refine ⟨by rw [hdf]; exact projections_length i g w, ?_, ?_⟩
  · intro p hp
    rw [hdf] at hp
    simp only [projections, List.mem_map] at hp
    obtain ⟨k, -, rfl⟩ := hp
    show reinvRate i g = _
    rfl
  · intro hclamp p hp
    rw [hdf] at hp
    simp only [projections, List.mem_map] at hp
    obtain ⟨k, -, rfl⟩ := hp
    show reinvRate i g = 80/100
    unfold reinvRate MAX_REINVESTMENT_RATE
    exact min_eq_right hclamp.le

/-- Witness for C7 at the spec example with `growth_rate = 0.20`,
`roic = 0.15` (so `g/roc = 4/3 > 0.8`): the year-1 row is clamped to 0.80. -/
theorem reinvestment_rate_clamped_witness :
    (mkProjection specInputs (2/10) (8/100) 1).reinvestment_rate = 80/100 :=
  (reinvestment_rate_clamped specInputs (2/10) (8/100) (25/1000)
      (okResult specInputs (2/10) (8/100) (25/1000))
      (run_eq_ok specInputs (2/10) (8/100) (25/1000) (by norm_num [specInputs])
        (by norm_num [specInputs]) (by norm_num)
        (ev_pos specInputs (2/10) (8/100) (25/1000) (by norm_num [specInputs])
          (by norm_num [specInputs]) (by norm_num [specInputs]) (by norm_num)
          (by norm_num) (by norm_num)).ne')).2.2
    (by norm_num [specInputs]) (mkProjection specInputs (2/10) (8/100) 1)
    (List.mem_map.mpr ⟨0, by simp [FORECAST_YEARS], rfl⟩)

/-! ## C3 — terminal-value guard -/

/-- C3: for any `wacc ≤ t_growth` the terminal-value computation never
raises: the explicit `ValueError` branch is unreachable (the clamp makes
`stable_wacc > t_growth` always), its two divisions never have a zero
denominator, and every successful run's `pv_terminal` is
`FCFF₅ × (1+g) / (stable_wacc − g)` discounted at the original `wacc`. -/
theorem terminal_value_guard (i : Inputs) (g w tg : ℚ) (_h : w ≤ tg) :
    (run_multi_valuation_enhanced i g w tg ≠ .error .terminalParamsInvalid ∧
     run_multi_valuation_enhanced i g w tg ≠ .error .divZeroTerminal ∧
     run_multi_valuation_enhanced i g w tg ≠ .error .divZeroPvTerminal) ∧
    (∀ r, run_multi_valuation_enhanced i g w tg = .ok r →
      r.pv_terminal =
        lastFcff i g w * (1 + tg) / (max w (tg + 1/100) - tg) / (1 + w) ^ 5) := by
  constructor
  · unfold run_multi_valuation_enhanced
    split_ifs with h1 h2 h3 h4 h5 h6 h7
    · exact ⟨by simp, by simp, by simp⟩
    · exact ⟨by simp, by simp, by simp⟩
    · exact ⟨by simp, by simp, by simp⟩
    · exact absurd h4 (not_le.mpr (stableWacc_gt w tg))
    · exact absurd h5 (sub_ne_zero.mpr (stableWacc_gt w tg).ne')
    · exact absurd h6 (pow_ne_zero _ h3)
    · exact ⟨by simp, by simp, by simp⟩
    · exact ⟨by simp, by simp, by simp⟩
  · intro r hr
    rw [run_ok_inv hr]
    rfl

/-- Witness for C3 at `wacc = 2% ≤ t_growth = 3%` on the spec example. -/
theorem terminal_value_guard_witness :
    run_multi_valuation_enhanced specInputs (1/10) (2/100) (3/100)
      ≠ .error .terminalParamsInvalid :=
  (terminal_value_guard specInputs (1/10) (2/100) (3/100) (by norm_num)).1.1

/-! ## C2 — degenerate inputs -/

/-- The spec example with `revenue = 0`. -/
def zeroRevenueInputs : Inputs := { specInputs with revenue := 0 }

/-- The spec example with `shares = 0`. -/
def zeroShareInputs : Inputs := { specInputs with shares := 0 }

/-- C2 counterexample: at `revenue = 0` the engine raises a
`ZeroDivisionError` — the f-string argument `(ebit/rev)*100` of the
base-year log line is evaluated eagerly — instead of returning a
well-formed zero result. -/
theorem revenue_zero_raises :
    run_multi_valuation_enhanced zeroRevenueInputs (1/10) (8/100) (2/100)
      = .error .divZeroMarginLog := by
  simp [run_multi_valuation_enhanced, zeroRevenueInputs]

/-- C2 (amended): for `shares = 0` with nonzero revenue (and no other
raising division: `roc ≠ 0`, `wacc ≠ -1`, nonzero enterprise value) the
engine does fail soft — it returns a well-formed result with
`dcf_price = 0` and `pe_price = 0` — but the projection sequence is the
usual 5-entry forecast, not empty; the `revenue = 0` half of the claim
raises instead (see the counterexample). -/
theorem shares_zero_fail_soft (i : Inputs) (g w tg : ℚ)
    (hs : i.shares = 0) (hrev : i.revenue ≠ 0) (hroc : i.roic ≠ 0)
    (hw : 1 + w ≠ 0) (hev : enterpriseValue i g w tg ≠ 0) :
    run_multi_valuation_enhanced i g w tg = .ok (okResult i g w tg) ∧
    (okResult i g w tg).dcf_price = 0 ∧
    (okResult i g w tg).pe_price = 0 ∧
    (okResult i g w tg).df.length = 5 := by
  refine ⟨run_eq_ok i g w tg hrev hroc hw hev, ?_, ?_, projections_length i g w⟩
  · simp [okResult, hs]
  · simp [okResult, hs]

/-- Witness for C2's amended statement at the spec example with zero shares. -/
theorem shares_zero_fail_soft_witness :
    (okResult zeroShareInputs (1/10) (8/100) (2/100)).dcf_price = 0 :=
  (shares_zero_fail_soft zeroShareInputs (1/10) (8/100) (2/100) rfl
    (by norm_num [zeroShareInputs, specInputs])
    (by norm_num [zeroShareInputs, specInputs]) (by norm_num)
    (ev_pos zeroShareInputs (1/10) (8/100) (2/100)
      (by norm_num [zeroShareInputs, specInputs])
      (by norm_num [zeroShareInputs, specInputs])
      (by norm_num [zeroShareInputs, specInputs]) (by norm_num) (by norm_num)
      (by norm_num)).ne').2.1

/-! ## C1 — share-count unit handling -/

lemma pe_price_eq (i : Inputs) (g w tg : ℚ) (hs : 0 < i.shares) :
    (okResult i g w tg).pe_price = i.net_income / (i.shares / 1000000) * 15 := by
  have h : (0:ℚ) < i.shares / 1000000 := by positivity
  simp only [okResult, if_pos h]

/-- C1 (the unit defect): whatever the `shares` field holds, the engine
divides it by 1e6 once more (`shares_m = inputs['shares'] / 1e6`), so under
the data-provider contract that `shares` is already in millions the
returned fair value is `1e6 × equity_value / shares` — a ×1e6 factor over
the claimed `equity_value / shares` — and the P/E price applies the same
(equally scaled) convention `eps = net_income / shares_m`. -/
theorem dcf_price_has_1e6_factor (i : Inputs) (g w tg : ℚ) (r : EngineResult)
    (h : run_multi_valuation_enhanced i g w tg = .ok r) (hs : 0 < i.shares) :
    r.dcf_price = 1000000 * (r.equity_value / i.shares) ∧
    r.pe_price = 1000000 * (i.net_income / i.shares) * 15 := by
  have hr := run_ok_inv h
  subst hr
  constructor
  · rw [dcf_price_eq i g w tg hs]
    have hev : (okResult i g w tg).equity_value
        = enterpriseValue i g w tg - i.debt + i.cash := rfl
    rw [hev]
    field_simp
    ring
  · rw [pe_price_eq i g w tg hs]
    field_simp
    ring

/-- The spec example under the data provider's shares-in-millions contract
(`shares = 100` meaning 100 million shares). -/
def millionsContractInputs : Inputs := { specInputs with shares := 100 }

/-- Witness for C1's ×1e6 factor at the millions-contract spec example. -/
theorem dcf_price_has_1e6_factor_witness :
    (okResult millionsContractInputs (1/10) (8/100) (25/1000)).dcf_price
      = 1000000 * ((okResult millionsContractInputs (1/10) (8/100) (25/1000)).equity_value
          / millionsContractInputs.shares) :=
  (dcf_price_has_1e6_factor millionsContractInputs (1/10) (8/100) (25/1000)
    (okResult millionsContractInputs (1/10) (8/100) (25/1000))
    (run_eq_ok millionsContractInputs (1/10) (8/100) (25/1000)
      (by norm_num [millionsContractInputs, specInputs])
      (by norm_num [millionsContractInputs, specInputs]) (by norm_num)
      (ev_pos millionsContractInputs (1/10) (8/100) (25/1000)
        (by norm_num [millionsContractInputs, specInputs])
        (by norm_num [millionsContractInputs, specInputs])
        (by norm_num [millionsContractInputs, specInputs]) (by norm_num)
        (by norm_num) (by norm_num)).ne')
    (by norm_num [millionsContractInputs, specInputs])).1

/-! ## C8 and C10 — sensitivity matrix -/

lemma cellAt_sensitivity (i : Inputs) (g bw btg : ℚ) (wr tr : List ℚ)
    (idx jdx : ℕ) (wv gv : ℚ) (hi : wr[idx]? = some wv) (hj : tr[jdx]? = some gv) :
    cellAt (sensitivity_heatmap_prices i g bw btg wr tr) idx jdx
      = some (sensCell i g wv gv) := by
  simp [cellAt, sensitivity_heatmap_prices, List.getElem?_map, hi, hj]

/-- C8: a sensitivity cell whose WACC does not exceed its terminal growth is
NaN and the engine is not invoked for it; any other cell holds exactly the
`dcf_price` of an independent engine run at that `(wacc, t_growth)` pair. -/
theorem sensitivity_cells_correct (i : Inputs) (g bw btg : ℚ) (wr tr : List ℚ)
    (idx jdx : ℕ) (wv gv : ℚ) (hi : wr[idx]? = some wv) (hj : tr[jdx]? = some gv) :
    (wv ≤ gv →
      cellAt (sensitivity_heatmap_prices i g bw btg wr tr) idx jdx = some none) ∧
    (¬ wv ≤ gv → ∀ r, run_multi_valuation_enhanced i g wv gv = .ok r →
      cellAt (sensitivity_heatmap_prices i g bw btg wr tr) idx jdx
        = some (some r.dcf_price)) := by
  constructor
  · intro hle
    rw [cellAt_sensitivity i g bw btg wr tr idx jdx wv gv hi hj]
    simp [sensCell, if_pos hle]
  · intro hgt r hr
    rw [cellAt_sensitivity i g bw btg wr tr idx jdx wv gv hi hj]
    simp [sensCell, if_neg hgt, hr]

/-- Witness for C8: with ranges `[0.02]` and `[0.03]` the single cell has
`wacc ≤ t_growth` and is NaN. -/
theorem sensitivity_cells_correct_witness :
    cellAt (sensitivity_heatmap_prices specInputs (1/10) (8/100) (25/1000)
      [2/100] [3/100]) 0 0 = some none :=
  (sensitivity_cells_correct specInputs (1/10) (8/100) (25/1000)
    [2/100] [3/100] 0 0 (2/100) (3/100) rfl rfl).1 (by norm_num)

/-- C10: `sensitivity_heatmap_prices` is total — the matrix always has one
row per WACC value and one column per terminal-growth value, and a cell
whose engine invocation raises any exception is caught by the per-cell
handler and stored as NaN. -/
theorem sensitivity_total_shape (i : Inputs) (g bw btg : ℚ) (wr tr : List ℚ) :
    (sensitivity_heatmap_prices i g bw btg wr tr).length = wr.length ∧
    ((sensitivity_heatmap_prices i g bw btg wr tr).map List.length
      = List.replicate wr.length tr.length) ∧
    (∀ idx jdx wv gv e, wr[idx]? = some wv → tr[jdx]? = some gv → ¬ wv ≤ gv →
      run_multi_valuation_enhanced i g wv gv = .error e →
      cellAt (sensitivity_heatmap_prices i g bw btg wr tr) idx jdx = some none) := by
  refine ⟨by simp [sensitivity_heatmap_prices], ?_, ?_⟩
  · simp only [sensitivity_heatmap_prices, List.map_map]
    induction wr with
    | nil => simp
    | cons x xs ih => simp_all [List.replicate_succ]
  · intro idx jdx wv gv e hi hj hgt hr
    rw [cellAt_sensitivity i g bw btg wr tr idx jdx wv gv hi hj]
    simp [sensCell, if_neg hgt, hr]

/-- Witness for C10's exception-to-NaN clause: the `revenue = 0` input makes
the engine raise, and the corresponding cell (whose WACC exceeds its
terminal growth) is NaN. -/
theorem sensitivity_total_shape_witness :
    cellAt (sensitivity_heatmap_prices zeroRevenueInputs (1/10) (8/100) (25/1000)
      [8/100] [2/100]) 0 0 = some none :=
  (sensitivity_total_shape zeroRevenueInputs (1/10) (8/100) (25/1000)
    [8/100] [2/100]).2.2 0 0 (8/100) (2/100) .divZeroMarginLog rfl rfl
    (by norm_num)
    (by simp [run_multi_valuation_enhanced, zeroRevenueInputs])

/-! ## C9 — WACC calculation -/

/-- `market_cap = (current_price * shares) / 1e6` (lines 95 and 161: the same
expression is used for the size premium and for the equity market value). -/
def marketCap (i : Inputs) : ℚ :=
  i.current_price * i.shares / 1000000

lemma sizePremium_megaCap {mc : ℚ} (h : 500000 < mc) : sizePremium mc = 0 := by
  unfold sizePremium
  rw [if_pos h]

lemma sizePremium_largeCap {mc : ℚ} (h1 : 100000 < mc) (h2 : mc ≤ 500000) :
    sizePremium mc = -(2/1000) := by
  unfold sizePremium
  rw [if_neg (not_lt.mpr h2), if_pos h1]

lemma sizePremium_midCap {mc : ℚ} (h1 : 10000 < mc) (h2 : mc ≤ 100000) :
    sizePremium mc = -(5/1000) := by
  unfold sizePremium
  rw [if_neg (not_lt.mpr (h2.trans (by norm_num))), if_neg (not_lt.mpr h2), if_pos h1]

lemma sizePremium_smallCap {mc : ℚ} (h : mc ≤ 10000) : sizePremium mc = 1/100 := by
  unfold sizePremium
  rw [if_neg (not_lt.mpr (h.trans (by norm_num))),
    if_neg (not_lt.mpr (h.trans (by norm_num))), if_neg (not_lt.mpr h)]

/-- C9: on every non-raising run of `calculate_wacc_detailed`, the cost of
equity is CAPM plus the exact size-premium step function plus the fixed
50 bps company premium; capital weights are market-value weights with the
zero-firm-value fallback to 100% equity; and the returned WACC satisfies
`WACC = E/V × Re + D/V × Rd × (1 − Tc)`. -/
theorem wacc_detailed_correct (i : Inputs) (rf erp : ℚ)
    (hie : i.interest_exp + 1/100000000 ≠ 0) :
    ∀ w c, calculate_wacc_detailed i rf erp = .ok (w, c) →
      (c.cost_of_equity = rf + i.beta * erp + sizePremium (marketCap i) + 5/1000) ∧
      (500000 < marketCap i → sizePremium (marketCap i) = 0) ∧
      (100000 < marketCap i → marketCap i ≤ 500000 →
        sizePremium (marketCap i) = -(2/1000)) ∧
      (10000 < marketCap i → marketCap i ≤ 100000 →
        sizePremium (marketCap i) = -(5/1000)) ∧
      (marketCap i ≤ 10000 → sizePremium (marketCap i) = 1/100) ∧
      (marketCap i + i.debt ≠ 0 →
        c.equity_weight = marketCap i / (marketCap i + i.debt) ∧
        c.debt_weight = i.debt / (marketCap i + i.debt)) ∧
      (marketCap i + i.debt = 0 → c.equity_weight = 1 ∧ c.debt_weight = 0) ∧
      (w = c.equity_weight * c.cost_of_equity
        + c.debt_weight * c.cost_of_debt * (1 - i.tax_rate)) ∧
      c.wacc = w := by
  intro w c h
  simp only [calculate_wacc_detailed, if_neg hie, Except.ok.injEq, Prod.mk.injEq] at h
  obtain ⟨hw, hc⟩ := h
  subst hc
  subst hw
  refine ⟨rfl, fun h1 => sizePremium_megaCap h1, fun h1 h2 => sizePremium_largeCap h1 h2,
    fun h1 h2 => sizePremium_midCap h1 h2, fun h1 => sizePremium_smallCap h1,
    ?_, ?_, rfl, rfl⟩
  · intro hne
    have hne' : i.current_price * i.shares / 1000000 + i.debt ≠ 0 := hne
    constructor
    · show (if i.current_price * i.shares / 1000000 + i.debt = 0 then (1:ℚ)
        else i.current_price * i.shares / 1000000 / (i.current_price * i.shares / 1000000 + i.debt)) = _
      rw [if_neg hne']
      rfl
    · show (if i.current_price * i.shares / 1000000 + i.debt = 0 then (0:ℚ)
        else i.debt / (i.current_price * i.shares / 1000000 + i.debt)) = _
      rw [if_neg hne']
      rfl
  · intro hz
    have hz' : i.current_price * i.shares / 1000000 + i.debt = 0 := hz
    constructor
    · show (if i.current_price * i.shares / 1000000 + i.debt = 0 then (1:ℚ) else _) = 1
      rw [if_pos hz']
    · show (if i.current_price * i.shares / 1000000 + i.debt = 0 then (0:ℚ) else _) = 0
      rw [if_pos hz']

/-- Witness for C9 at the spec example, default market parameters: the
returned WACC obeys the weighted formula. -/
theorem wacc_detailed_correct_witness :
    (waccComponents specInputs (45/1000) (55/1000)).wacc
      = (waccComponents specInputs (45/1000) (55/1000)).equity_weight
          * (waccComponents specInputs (45/1000) (55/1000)).cost_of_equity
        + (waccComponents specInputs (45/1000) (55/1000)).debt_weight
          * (waccComponents specInputs (45/1000) (55/1000)).cost_of_debt
          * (1 - specInputs.tax_rate) := by
  have hok : calculate_wacc_detailed specInputs (45/1000) (55/1000)
      = .ok ((waccComponents specInputs (45/1000) (55/1000)).wacc,
             waccComponents specInputs (45/1000) (55/1000)) := by
    unfold calculate_wacc_detailed
    rw [if_neg (by norm_num [specInputs])]
  have h := (wacc_detailed_correct specInputs (45/1000) (55/1000)
    (by norm_num [specInputs]) _ _ hok).2.2.2.2.2.2.2.1
  exact h

/-! ## C6 — validator severities -/

lemma isValid_false_of_mem {i : Inputs} {x : VIssue} (h : x ∈ errorsOf i) :
    isValid i = false := by
  simp only [isValid, decide_eq_false_iff_not]
  exact List.ne_nil_of_mem h

lemma mem_revenueBelow {i : Inputs} (h : i.revenue < 1) :
    VIssue.revenueBelowMin ∈ errorsOf i := by
  unfold errorsOf scaleErrors
  rw [if_pos h]
  simp

lemma mem_revenueAbove {i : Inputs} (h : 1000000 < i.revenue) :
    VIssue.revenueAboveMax ∈ errorsOf i := by
  unfold errorsOf scaleErrors
  rw [if_neg (not_lt.mpr (by linarith : (1:ℚ) ≤ i.revenue)), if_pos h]
  simp

lemma mem_marginBelow {i : Inputs} (h0 : 0 < i.revenue)
    (h : i.ebit / i.revenue < -(1/2)) :
    VIssue.ebitMarginBelowMin ∈ errorsOf i := by
  unfold errorsOf scaleErrors
  rw [if_pos h0, if_pos h]
  simp

lemma mem_marginAbove {i : Inputs} (h0 : 0 < i.revenue)
    (h : 7/10 < i.ebit / i.revenue) :
    VIssue.ebitMarginAboveMax ∈ errorsOf i := by
  unfold errorsOf scaleErrors
  rw [if_pos h0, if_neg (not_lt.mpr (by linarith : -(1/2) ≤ i.ebit / i.revenue)),
    if_pos h]
  simp

lemma mem_coverageDistressed {i : Inputs} (hie : 0 < i.interest_exp)
    (h : i.ebit / i.interest_exp ≤ 3/2) :
    VIssue.coverageDistressedErr ∈ errorsOf i := by
  unfold errorsOf leverageErrors
  rw [if_pos hie, if_neg (not_lt.mpr h)]
  simp

lemma mem_leverageExcessive {i : Inputs} (hd : 0 < i.debt)
    (hev : 0 < equityMarketValue i) (h : 5 ≤ i.debt / equityMarketValue i) :
    VIssue.leverageExcessiveErr ∈ errorsOf i := by
  unfold errorsOf leverageErrors
  rw [if_pos (⟨hd, hev, not_lt.mpr h⟩ :
    i.debt > 0 ∧ equityMarketValue i > 0 ∧ ¬ (i.debt / equityMarketValue i < 5))]
  simp

lemma scaleErrors_nil (i : Inputs) (h1 : 1 ≤ i.revenue) (h2 : i.revenue ≤ 1000000)
    (h3 : 1/10 ≤ i.shares / 1000000) (h4 : i.shares / 1000000 ≤ 10000)
    (h5 : -(1/2) ≤ i.ebit / i.revenue) (h6 : i.ebit / i.revenue ≤ 7/10) :
    scaleErrors i = [] := by
  unfold scaleErrors
  rw [if_neg (not_lt.mpr h1), if_neg (not_lt.mpr h2), if_neg (not_lt.mpr h3),
    if_neg (not_lt.mpr h4), if_pos (show i.revenue > 0 by linarith),
    if_neg (not_lt.mpr h5), if_neg (not_lt.mpr h6)]
  rfl

lemma leverageErrors_nil (i : Inputs)
    (h7 : 0 < i.interest_exp → 3/2 < i.ebit / i.interest_exp)
    (h8 : 0 < i.debt → 0 < equityMarketValue i → i.debt / equityMarketValue i < 5) :
    leverageErrors i = [] := by
  unfold leverageErrors
  rw [List.append_eq_nil]
  constructor
  · split_ifs with ha hb
    · rfl
    · exact absurd (h7 ha) hb
    · rfl
  · rw [if_neg]
    rintro ⟨hd, hev, hlt⟩
    exact hlt (h8 hd hev)

lemma mem_coverageElevated {i : Inputs} (hie : 0 < i.interest_exp)
    (h1 : 3/2 < i.ebit / i.interest_exp) (h2 : i.ebit / i.interest_exp ≤ 5/2) :
    VIssue.coverageElevatedWarn ∈ warningsOf i := by
  unfold warningsOf leverageWarnings
  rw [if_pos hie, if_neg (not_lt.mpr (by linarith : i.ebit / i.interest_exp ≤ 5)),
    if_neg (not_lt.mpr h2), if_pos h1]
  simp

lemma mem_leverageElevated {i : Inputs} (hd : 0 < i.debt)
    (hev : 0 < equityMarketValue i) (h2 : 2 ≤ i.debt / equityMarketValue i)
    (h5 : i.debt / equityMarketValue i < 5) :
    VIssue.leverageElevatedWarn ∈ warningsOf i := by
  unfold warningsOf leverageWarnings
  rw [if_pos (⟨hd, hev, h2, h5⟩ :
    i.debt > 0 ∧ equityMarketValue i > 0 ∧
      2 ≤ i.debt / equityMarketValue i ∧ i.debt / equityMarketValue i < 5)]
  simp

lemma mem_thinMargin {i : Inputs} (h0 : 0 < i.revenue)
    (hnn : 0 ≤ i.ebit / i.revenue) (h : i.ebit / i.revenue < 1/20) :
    VIssue.ebitMarginThinWarn ∈ warningsOf i := by
  unfold warningsOf marginWarnings
  rw [if_pos h0, if_neg (not_lt.mpr hnn), if_pos h]
  simp

/-- C6: the validator's severity policy.  Out-of-bounds revenue, EBIT
margin, excessive debt/equity and distressed interest coverage (in
particular any coverage below 1.0×) each append an error and force
`is_valid = false`; when every error condition is absent `is_valid` is
true, while the unusual-but-plausible bands — coverage in (1.5, 2.5],
debt/equity in [2, 5), thin nonnegative EBIT margin below 5% — merely
append warnings. -/
theorem validator_severity (i : Inputs) :
    (i.revenue < 1 → isValid i = false ∧ VIssue.revenueBelowMin ∈ errorsOf i) ∧
    (1000000 < i.revenue → isValid i = false ∧ VIssue.revenueAboveMax ∈ errorsOf i) ∧
    (0 < i.revenue → i.ebit / i.revenue < -(1/2) →
      isValid i = false ∧ VIssue.ebitMarginBelowMin ∈ errorsOf i) ∧
    (0 < i.revenue → 7/10 < i.ebit / i.revenue →
      isValid i = false ∧ VIssue.ebitMarginAboveMax ∈ errorsOf i) ∧
    (0 < i.interest_exp → i.ebit / i.interest_exp < 1 →
      isValid i = false ∧ VIssue.coverageDistressedErr ∈ errorsOf i) ∧
    (0 < i.debt → 0 < equityMarketValue i → 5 < i.debt / equityMarketValue i →
      isValid i = false ∧ VIssue.leverageExcessiveErr ∈ errorsOf i) ∧
    (1 ≤ i.revenue → i.revenue ≤ 1000000 → 1/10 ≤ i.shares / 1000000 →
      i.shares / 1000000 ≤ 10000 → -(1/2) ≤ i.ebit / i.revenue →
      i.ebit / i.revenue ≤ 7/10 →
      (0 < i.interest_exp → 3/2 < i.ebit / i.interest_exp) →
      (0 < i.debt → 0 < equityMarketValue i → i.debt / equityMarketValue i < 5) →
      isValid i = true) ∧
    (0 < i.interest_exp → 3/2 < i.ebit / i.interest_exp →
      i.ebit / i.interest_exp ≤ 5/2 →
      VIssue.coverageElevatedWarn ∈ warningsOf i) ∧
    (0 < i.debt → 0 < equityMarketValue i → 2 ≤ i.debt / equityMarketValue i →
      i.debt / equityMarketValue i < 5 →
      VIssue.leverageElevatedWarn ∈ warningsOf i) ∧
    (0 < i.revenue → 0 ≤ i.ebit / i.revenue → i.ebit / i.revenue < 1/20 →
      VIssue.ebitMarginThinWarn ∈ warningsOf i) := by
  refine ⟨?_, ?_, ?_, ?_, ?_, ?_, ?_, ?_, ?_, ?_⟩
  · intro h
    exact ⟨isValid_false_of_mem (mem_revenueBelow h), mem_revenueBelow h⟩
  · intro h
    exact ⟨isValid_false_of_mem (mem_revenueAbove h), mem_revenueAbove h⟩
  · intro h0 h
    exact ⟨isValid_false_of_mem (mem_marginBelow h0 h), mem_marginBelow h0 h⟩
  · intro h0 h
    exact ⟨isValid_false_of_mem (mem_marginAbove h0 h), mem_marginAbove h0 h⟩
  · intro hie h
    have hm := mem_coverageDistressed hie (by linarith)
    exact ⟨isValid_false_of_mem hm, hm⟩
  · intro hd hev h
    have hm := mem_leverageExcessive hd hev h.le
    exact ⟨isValid_false_of_mem hm, hm⟩
  · intro h1 h2 h3 h4 h5 h6 h7 h8
    have hnil : errorsOf i = [] := by
      unfold errorsOf
      rw [scaleErrors_nil i h1 h2 h3 h4 h5 h6, leverageErrors_nil i h7 h8]
      rfl
    simp [isValid, hnil]
  · exact fun hie h1 h2 => mem_coverageElevated hie h1 h2
  · exact fun hd hev h2 h5 => mem_leverageElevated hd hev h2 h5
  · exact fun h0 hnn h => mem_thinMargin h0 hnn h

/-- A plausible company sitting in every warning band: interest coverage
2.0×, debt/equity 3.0×, EBIT margin 3%. -/
def warnBandInputs : Inputs :=
  { revenue := 1000, ebit := 30, net_income := 20, tax_rate := 21/100,
    shares := 100000000, debt := 3000, cash := 100, current_price := 10,
    interest_exp := 15, dividends := 0, beta := 1, roic := 15/100 }

/-- Witness for C6: the warning-band company validates (`is_valid` true)
and carries the coverage-band warning. -/
theorem validator_severity_witness :
    isValid warnBandInputs = true ∧
    VIssue.coverageElevatedWarn ∈ warningsOf warnBandInputs :=
  ⟨(validator_severity warnBandInputs).2.2.2.2.2.2.1
      (by norm_num [warnBandInputs]) (by norm_num [warnBandInputs])
      (by norm_num [warnBandInputs]) (by norm_num [warnBandInputs])
      (by norm_num [warnBandInputs]) (by norm_num [warnBandInputs])
      (by norm_num [warnBandInputs])
      (by norm_num [warnBandInputs, equityMarketValue]),
   (validator_severity warnBandInputs).2.2.2.2.2.2.2.1
      (by norm_num [warnBandInputs]) (by norm_num [warnBandInputs])
      (by norm_num [warnBandInputs])⟩

/-! ## C5 — monotonicity of the DCF price in WACC and terminal growth -/

lemma term_anti (F : ℚ) (hF : 0 < F) (y : ℕ) (hy : y ≠ 0) {w1 w2 : ℚ}
    (h1 : -1 < w1) (h12 : w1 < w2) :
    F * (1 / (1 + w2) ^ y) < F * (1 / (1 + w1) ^ y) := by
  have h1p : (0:ℚ) < 1 + w1 := by linarith
  have hpow : (1 + w1) ^ y < (1 + w2) ^ y :=
    pow_lt_pow_left₀ (by linarith) h1p.le hy
  exact mul_lt_mul_of_pos_left (one_div_lt_one_div_of_lt (pow_pos h1p y) hpow) hF

lemma pvExplicit_anti (i : Inputs) (g : ℚ) {w1 w2 : ℚ}
    (hr : 0 < i.revenue) (he : 0 < i.ebit) (htax : i.tax_rate < 1) (hg : -1 < g)
    (h1 : -1 < w1) (h12 : w1 < w2) :
    pvExplicit i g w2 < pvExplicit i g w1 := by
  rw [pvExplicit_eq i g w1 hr, pvExplicit_eq i g w2 hr]
  have hb := fcffBase_pos i g he htax
  have ha : (0:ℚ) < 1 + g := by linarith
  have hF : ∀ y : ℕ, 0 < fcffBase i g * (1 + g) ^ y :=
    fun y => mul_pos hb (pow_pos ha y)
  have t1 := term_anti _ (hF 1) 1 one_ne_zero h1 h12
  have t2 := term_anti _ (hF 2) 2 (by norm_num) h1 h12
  have t3 := term_anti _ (hF 3) 3 (by norm_num) h1 h12
  have t4 := term_anti _ (hF 4) 4 (by norm_num) h1 h12
  have t5 := term_anti _ (hF 5) 5 (by norm_num) h1 h12
  linarith

lemma pvTerminal_anti (i : Inputs) (g tg : ℚ) {w1 w2 : ℚ}
    (hr : 0 < i.revenue) (he : 0 < i.ebit) (htax : i.tax_rate < 1) (hg : -1 < g)
    (htg : -1 < tg) (hw1 : tg + 1/100 < w1) (h12 : w1 < w2) :
    pvTerminal i g w2 tg < pvTerminal i g w1 tg := by
  rw [pvTerminal_eq i g w1 tg hw1.le hr, pvTerminal_eq i g w2 tg (by linarith) hr]
  have hb := fcffBase_pos i g he htax
  have hN : 0 < fcffBase i g * (1 + g) ^ 5 * (1 + tg) :=
    mul_pos (mul_pos hb (pow_pos (by linarith) 5)) (by linarith)
  have h1p : (0:ℚ) < 1 + w1 := by linarith
  have hD1 : 0 < (w1 - tg) * (1 + w1) ^ 5 := mul_pos (by linarith) (pow_pos h1p 5)
  have hD12 : (w1 - tg) * (1 + w1) ^ 5 < (w2 - tg) * (1 + w2) ^ 5 :=
    mul_lt_mul'' (by linarith) (pow_lt_pow_left₀ (by linarith) h1p.le (by norm_num))
      (by linarith) (pow_pos h1p 5).le
  exact div_lt_div_of_pos_left hN hD1 hD12

lemma pvTerminal_mono_tg (i : Inputs) (g w : ℚ) {t1 t2 : ℚ}
    (hr : 0 < i.revenue) (he : 0 < i.ebit) (htax : i.tax_rate < 1) (hg : -1 < g)
    (ht1 : -1 < t1) (h12 : t1 < t2) (hw : t2 + 1/100 < w) :
    pvTerminal i g w t1 < pvTerminal i g w t2 := by
  rw [pvTerminal_eq i g w t1 (by linarith) hr, pvTerminal_eq i g w t2 hw.le hr]
  have hb := fcffBase_pos i g he htax
  have hL : 0 < fcffBase i g * (1 + g) ^ 5 := mul_pos hb (pow_pos (by linarith) 5)
  have hwp : (0:ℚ) < 1 + w := by linarith
  have hD1 : 0 < (w - t1) * (1 + w) ^ 5 := mul_pos (by linarith) (pow_pos hwp 5)
  have hD2 : 0 < (w - t2) * (1 + w) ^ 5 := mul_pos (by linarith) (pow_pos hwp 5)
  rw [div_lt_div_iff₀ hD1 hD2]
  have key : (1 + t1) * (w - t2) < (1 + t2) * (w - t1) := by
    nlinarith [mul_pos (sub_pos.mpr h12) hwp]
  nlinarith [mul_lt_mul_of_pos_left key (mul_pos hL (pow_pos hwp 5))]

/-- C5: for positive revenue, EBIT and shares, a valid tax rate and growth
rate, and assumptions with `wacc > t_growth + 0.01` (so the clamp is
inactive): holding `growth_rate` and `t_growth` fixed, a strictly larger
WACC gives a strictly smaller `dcf_price`; holding `growth_rate` and `wacc`
fixed, a strictly larger terminal growth gives a strictly larger
`dcf_price`. -/
theorem dcf_price_monotone (i : Inputs) (g : ℚ)
    (hr : 0 < i.revenue) (he : 0 < i.ebit) (hs : 0 < i.shares)
    (htax : i.tax_rate < 1) (hg : -1 < g) :
    (∀ tg w1 w2 r1 r2, -1 < tg → tg + 1/100 < w1 → w1 < w2 →
      run_multi_valuation_enhanced i g w1 tg = .ok r1 →
      run_multi_valuation_enhanced i g w2 tg = .ok r2 →
      r2.dcf_price < r1.dcf_price) ∧
    (∀ w t1 t2 r1 r2, -1 < t1 → t1 < t2 → t2 + 1/100 < w →
      run_multi_valuation_enhanced i g w t1 = .ok r1 →
      run_multi_valuation_enhanced i g w t2 = .ok r2 →
      r1.dcf_price < r2.dcf_price) := by
  have hsm : (0:ℚ) < i.shares / 1000000 := by positivity
  constructor
  · intro tg w1 w2 r1 r2 htg hw1 h12 hok1 hok2
    rw [run_ok_inv hok1, run_ok_inv hok2, dcf_price_eq i g w1 tg hs,
      dcf_price_eq i g w2 tg hs, div_lt_div_iff_of_pos_right hsm]
    have h1 : pvExplicit i g w2 < pvExplicit i g w1 :=
      pvExplicit_anti i g hr he htax hg (by linarith) h12
    have h2 : pvTerminal i g w2 tg < pvTerminal i g w1 tg :=
      pvTerminal_anti i g tg hr he htax hg htg hw1 h12
    unfold enterpriseValue
    linarith
  · intro w t1 t2 r1 r2 ht1 h12 hw hok1 hok2
    rw [run_ok_inv hok1, run_ok_inv hok2, dcf_price_eq i g w t1 hs,
      dcf_price_eq i g w t2 hs, div_lt_div_iff_of_pos_right hsm]
    have h2 : pvTerminal i g w t1 < pvTerminal i g w t2 :=
      pvTerminal_mono_tg i g w hr he htax hg ht1 h12 hw
    unfold enterpriseValue
    linarith

/-- Witness for C5 (WACC direction) at the spec example: raising WACC from
8% to 9% strictly lowers the DCF price. -/
theorem dcf_price_monotone_witness :
    (okResult specInputs (1/10) (9/100) (25/1000)).dcf_price
      < (okResult specInputs (1/10) (8/100) (25/1000)).dcf_price :=
  (dcf_price_monotone specInputs (1/10) (by norm_num [specInputs])
    (by norm_num [specInputs]) (by norm_num [specInputs])
    (by norm_num [specInputs]) (by norm_num)).1 (25/1000) (8/100) (9/100)
    (okResult specInputs (1/10) (8/100) (25/1000))
    (okResult specInputs (1/10) (9/100) (25/1000))
    (by norm_num) (by norm_num) (by norm_num)
    (run_eq_ok specInputs (1/10) (8/100) (25/1000) (by norm_num [specInputs])
      (by norm_num [specInputs]) (by norm_num)
      (ev_pos specInputs (1/10) (8/100) (25/1000) (by norm_num [specInputs])
        (by norm_num [specInputs]) (by norm_num [specInputs]) (by norm_num)
        (by norm_num) (by norm_num)).ne')
    (run_eq_ok specInputs (1/10) (9/100) (25/1000) (by norm_num [specInputs])
      (by norm_num [specInputs]) (by norm_num)
      (ev_pos specInputs (1/10) (9/100) (25/1000) (by norm_num [specInputs])
        (by norm_num [specInputs]) (by norm_num [specInputs]) (by norm_num)
        (by norm_num) (by norm_num)).ne')

end DCF

